import Mathlib

/-!
Shallow embedding of the volunteer workspace-export pipeline
(`src/app/api/v1/data_exports/workspace/mod.rs`).

The pipeline transforms a list of volunteers into three aligned sequences
(provisioning requests, export records, notification payloads), provisions
accounts with a fail-fast loop, truncates the trailing sequences to the
number of provisioning successes, batch-persists the export records,
sends onboarding emails best-effort, and finally writes the job status.

External services (workspace provisioning, storage, mail) are modelled by an
oracle `World` giving the outcome of each external call, and every external
call is recorded in an event trace, so that claims about which calls are made
and in which order can be stated and proved.
-/

namespace Scipio

/-- Volunteer input record. Modelled from the spec: `VolunteerDetails`
carries a volunteer id, first and last name, and the personal email
(the source file uses the field name `email`). The full entity lives in
`services/storage/entities`, which is not under `src/`. -/
structure VolunteerDetails where
  volunteer_id : Nat
  first_name : String
  last_name : String
  email : String
deriving DecidableEq, Repr

/-- Provisioning request sent to the workspace service
(`CreateWorkspaceVolunteer` in `services/workspace/entities`). -/
structure CreateWorkspaceVolunteer where
  primary_email : String
  first_name : String
  last_name : String
  password : String
  recovery_email : String
deriving DecidableEq, Repr

/-- Durable export record (`InsertVolunteerExportedToWorkspace` in
`services/storage/volunteers`). -/
structure InsertVolunteerExportedToWorkspace where
  volunteer_id : Nat
  job_id : Nat
  workspace_email : String
  org_unit : String
deriving DecidableEq, Repr

/-- Onboarding notification payload (`OnboardingEmailParams` in
`services/mail`); field layout as used by `services/mail/tests/mod.rs`. -/
structure OnboardingEmailParams where
  first_name : String
  last_name : String
  email : String
  workspace_email : String
  temporary_password : String
  send_at : Option Nat
deriving DecidableEq, Repr

/-- Modelled from the spec: the derive-style builder for
`OnboardingEmailParams` (its source is not under `src/`). Every field is
optional until set; `build` fails exactly when a required field was never
provided, i.e. when the payload cannot be fully constructed. -/
structure OnboardingEmailParamsBuilder where
  first_name : Option String := none
  last_name : Option String := none
  email : Option String := none
  workspace_email : Option String := none
  temporary_password : Option String := none
  send_at : Option Nat := none

/-- Modelled from the spec: `build` succeeds iff all required fields are
set; `send_at` is optional. -/
def OnboardingEmailParamsBuilder.build (b : OnboardingEmailParamsBuilder) :
    Except String OnboardingEmailParams :=
  match b.first_name, b.last_name, b.email, b.workspace_email, b.temporary_password with
  | some f, some l, some e, some we, some tp =>
      Except.ok ⟨f, l, e, we, tp, b.send_at⟩
  | _, _, _, _, _ => Except.error "uninitialized field"

/-- Modelled from the spec: `EmailPolicy` is a pure strategy deriving a
workspace email from a first and last name (`policies` module is not under
`src/`). -/
structure EmailPolicy where
  build_volunteer_email : String → String → String

/-- Modelled from the spec: `PasswordPolicy.generate_password()` is a pure
injectable strategy producing a one-time password per call; the source calls
it once per volunteer in input order, so it is modelled as a function of the
call index. -/
structure PasswordPolicy where
  generate_password : Nat → String

/-- Job input (`ExportParams` in the source). -/
structure ExportParams where
  job_id : Nat
  principal : String
  email_policy : EmailPolicy
  password_policy : PasswordPolicy
  volunteers : List VolunteerDetails

/-- Output of the transform stage (`ProcessedVolunteers` in the source). -/
structure ProcessedVolunteers where
  export_data : List CreateWorkspaceVolunteer
  pantheon_data : List InsertVolunteerExportedToWorkspace
  onboarding_email_data : List OnboardingEmailParams
deriving DecidableEq, Repr

/-- Loop body of `process_volunteers`, one iteration per volunteer, carrying
the call index `i` of the password generator. `ov` models the
`MAIL_RECIPIENT_OVERRIDE` environment variable, read by the source inside
the loop via `env::var(..).unwrap_or_else(|_| recovery_email)`. -/
def processVolunteersLoop (ov : Option String) (params : ExportParams) :
    List VolunteerDetails → Nat → Except String ProcessedVolunteers
  | [], _ => Except.ok ⟨[], [], []⟩
  | v :: rest, i =>
    let primary_email := params.email_policy.build_volunteer_email v.first_name v.last_name
    let temporary_password := params.password_policy.generate_password i
    let workspace_user : CreateWorkspaceVolunteer :=
      ⟨primary_email, v.first_name, v.last_name, temporary_password, v.email⟩
    match OnboardingEmailParamsBuilder.build
        ⟨some workspace_user.first_name, some workspace_user.last_name,
         some (ov.getD workspace_user.recovery_email),
         some workspace_user.primary_email, some workspace_user.password, none⟩ with
    | Except.error e => Except.error e
    | Except.ok emailParams =>
      match processVolunteersLoop ov params rest (i + 1) with
      | Except.error e => Except.error e
      | Except.ok pr =>
        Except.ok ⟨workspace_user :: pr.export_data,
          (⟨v.volunteer_id, params.job_id, primary_email, "/Programs/PantheonUsers"⟩ :
            InsertVolunteerExportedToWorkspace) :: pr.pantheon_data,
          emailParams :: pr.onboarding_email_data⟩

/-- `process_volunteers` from the source: iterate the volunteer list once,
in order, building the three aligned sequences. -/
def process_volunteers (ov : Option String) (params : ExportParams) :
    Except String ProcessedVolunteers :=
  processVolunteersLoop ov params params.volunteers 0

/-- Oracle for the external services: the outcome of the i-th
`create_volunteer` call, of the single batch insert, of the i-th
`send_onboarding_email` call, and of the terminal status writes. -/
structure World where
  createResult : Nat → Except String Unit
  insertResult : Except String Unit
  sendResult : Nat → Except String Unit
  completeResult : Except String Unit
  erroredResult : Except String Unit

/-- One external call made by the pipeline, in order of occurrence. -/
inductive Event where
  | createAccount (principal : String) (request : CreateWorkspaceVolunteer)
  | batchInsert (records : List InsertVolunteerExportedToWorkspace)
  | sendEmail (payload : OnboardingEmailParams)
  | markComplete (job_id : Nat)
  | markErrored (job_id : Nat) (reason : String)
deriving DecidableEq, Repr

/-- Loop body of `export_volunteers_to_workspace`: call
`workspace.create_volunteer` for each request in order; count successes and
break on the first failure. `i` is the call index into the oracle. -/
def exportVolunteersLoop (w : World) (principal : String) :
    List CreateWorkspaceVolunteer → Nat → Nat × List Event
  | [], _ => (0, [])
  | user :: rest, i =>
    match w.createResult i with
    | Except.ok _ =>
      let r := exportVolunteersLoop w principal rest (i + 1)
      (r.1 + 1, Event.createAccount principal user :: r.2)
    | Except.error _ => (0, [Event.createAccount principal user])

/-- `export_volunteers_to_workspace` from the source: fail-fast provisioning
loop returning the number of successfully exported users, together with the
trace of provisioning calls made. -/
def export_volunteers_to_workspace (w : World) (principal : String)
    (export_data : List CreateWorkspaceVolunteer) : Nat × List Event :=
  exportVolunteersLoop w principal export_data 0

/-- `save_exported_volunteers` from the source: one batch insert of all
records; its error (if any) is propagated with its message intact. -/
def save_exported_volunteers (w : World)
    (save_data : List InsertVolunteerExportedToWorkspace) :
    Except String Unit × List Event :=
  (w.insertResult, [Event.batchInsert save_data])

/-- Loop body of `send_onboarding_emails`: each payload gets a send call;
both the success and the failure arm only log and continue. -/
def sendEmailsLoop (w : World) :
    List OnboardingEmailParams → Nat → List Event
  | [], _ => []
  | email :: rest, i =>
    match w.sendResult i with
    | Except.ok _ => Event.sendEmail email :: sendEmailsLoop w rest (i + 1)
    | Except.error _ => Event.sendEmail email :: sendEmailsLoop w rest (i + 1)

/-- `send_onboarding_emails` from the source: best-effort loop over all
payloads; always returns `Ok(())`. -/
def send_onboarding_emails (w : World)
    (onboarding_data : List OnboardingEmailParams) :
    Except String Unit × List Event :=
  (Except.ok (), sendEmailsLoop w onboarding_data 0)

/-- `export_task` from the source, the pipeline entry point: transform,
provision (fail-fast), truncate the two trailing sequences when not all
users were exported, persist, notify, and write the terminal job status.
The status-write calls use `?` in the source, so their errors propagate out
of `export_task`; the call itself is recorded in the trace either way. -/
def export_task (w : World) (ov : Option String) (params : ExportParams) :
    Except String Unit × List Event :=
  match process_volunteers ov params with
  | Except.error e => (Except.error e, [])
  | Except.ok processed =>
    let number_of_users_to_export := processed.export_data.length
    let er := export_volunteers_to_workspace w params.principal processed.export_data
    let exported_count := er.1
    let pantheon_data :=
      if exported_count ≠ number_of_users_to_export
      then processed.pantheon_data.take exported_count
      else processed.pantheon_data
    let onboarding_email_data :=
      if exported_count ≠ number_of_users_to_export
      then processed.onboarding_email_data.take exported_count
      else processed.onboarding_email_data
    let sv := save_exported_volunteers w pantheon_data
    match sv.1 with
    | Except.ok _ =>
      let se := send_onboarding_emails w onboarding_email_data
      match se.1 with
      | Except.ok _ =>
        match w.completeResult with
        | Except.ok _ =>
          (Except.ok (), er.2 ++ sv.2 ++ se.2 ++ [Event.markComplete params.job_id])
        | Except.error e2 =>
          (Except.error e2, er.2 ++ sv.2 ++ se.2 ++ [Event.markComplete params.job_id])
      | Except.error e =>
        match w.erroredResult with
        | Except.ok _ =>
          (Except.ok (), er.2 ++ sv.2 ++ se.2 ++ [Event.markErrored params.job_id e])
        | Except.error e2 =>
          (Except.error e2, er.2 ++ sv.2 ++ se.2 ++ [Event.markErrored params.job_id e])
    | Except.error e =>
      match w.erroredResult with
      | Except.ok _ =>
        (Except.ok (), er.2 ++ sv.2 ++ [Event.markErrored params.job_id e])
      | Except.error e2 =>
        (Except.error e2, er.2 ++ sv.2 ++ [Event.markErrored params.job_id e])

/-- Provisioning requests appearing in a trace, in order. -/
def createdRequests (tr : List Event) : List CreateWorkspaceVolunteer :=
  tr.filterMap fun ev =>
    match ev with
    | Event.createAccount _ r => some r
    | _ => none

/-- Record batches passed to the batch-insert call, in order. -/
def insertedBatches (tr : List Event) :
    List (List InsertVolunteerExportedToWorkspace) :=
  tr.filterMap fun ev =>
    match ev with
    | Event.batchInsert rs => some rs
    | _ => none

/-- Notification payloads passed to the mail service, in order. -/
def sentPayloads (tr : List Event) : List OnboardingEmailParams :=
  tr.filterMap fun ev =>
    match ev with
    | Event.sendEmail p => some p
    | _ => none

/-- Whether an event is a job-status write. -/
def isStatusEvent : Event → Bool
  | Event.markComplete _ => true
  | Event.markErrored _ _ => true
  | _ => false

/-- Job-status writes appearing in a trace, in order. -/
def statusEvents (tr : List Event) : List Event :=
  tr.filter isStatusEvent

/-- Map with an explicit start index, used to state the closed form of the
transform loop. -/
def mapWithIndex {α β : Type} (f : Nat → α → β) : Nat → List α → List β
  | _, [] => []
  | i, a :: l => f i a :: mapWithIndex f (i + 1) l

/-- The provisioning request derived from the volunteer at call index `i`,
transcribing the loop body of `process_volunteers`. -/
def userAt (params : ExportParams) (i : Nat) (v : VolunteerDetails) :
    CreateWorkspaceVolunteer :=
  ⟨params.email_policy.build_volunteer_email v.first_name v.last_name,
   v.first_name, v.last_name, params.password_policy.generate_password i, v.email⟩

/-- The export record derived from a volunteer, transcribing the loop body
of `process_volunteers`. -/
def recordAt (params : ExportParams) (v : VolunteerDetails) :
    InsertVolunteerExportedToWorkspace :=
  ⟨v.volunteer_id, params.job_id,
   params.email_policy.build_volunteer_email v.first_name v.last_name,
   "/Programs/PantheonUsers"⟩

/-- The notification payload derived from the volunteer at call index `i`,
transcribing the loop body of `process_volunteers`. -/
def emailAt (ov : Option String) (params : ExportParams) (i : Nat)
    (v : VolunteerDetails) : OnboardingEmailParams :=
  ⟨v.first_name, v.last_name, ov.getD v.email,
   params.email_policy.build_volunteer_email v.first_name v.last_name,
   params.password_policy.generate_password i, none⟩

/-! ### Concrete fixtures used by the witnesses -/

/-- A concrete volunteer. -/
def v0 : VolunteerDetails := ⟨1, "Ada", "Lovelace", "ada@home.org"⟩

/-- A second concrete volunteer. -/
def v1 : VolunteerDetails := ⟨2, "Alan", "Turing", "alan@home.org"⟩

/-- Concrete job parameters over two volunteers, with simple concrete
policies. -/
def sampleParams : ExportParams :=
  ⟨7, "admin", ⟨fun f l => f ++ "." ++ l ++ "@ws.org"⟩,
   ⟨fun i => "pw" ++ toString i⟩, [v0, v1]⟩

/-- The transform output on `sampleParams` with no recipient override. -/
def samplePr : ProcessedVolunteers :=
  ⟨[userAt sampleParams 0 v0, userAt sampleParams 1 v1],
   [recordAt sampleParams v0, recordAt sampleParams v1],
   [emailAt none sampleParams 0 v0, emailAt none sampleParams 1 v1]⟩

/-- A world where every external call succeeds. -/
def okWorld : World :=
  ⟨fun _ => Except.ok (), Except.ok (), fun _ => Except.ok (),
   Except.ok (), Except.ok ()⟩

/-- A world whose provisioning calls succeed only for the first request. -/
def failWorld : World :=
  { okWorld with createResult :=
      fun i => if i = 0 then Except.ok () else Except.error "ws down" }

/-! ### Closed form of the transform -/

theorem mapWithIndex_length {α β : Type} (f : Nat → α → β) :
    ∀ (i : Nat) (l : List α), (mapWithIndex f i l).length = l.length := by
  intro i l
  induction l generalizing i with
  | nil => rfl
  | cons a l ih => simp [mapWithIndex, ih]

theorem mapWithIndex_get? {α β : Type} (f : Nat → α → β) :
    ∀ (l : List α) (i j : Nat),
      (mapWithIndex f i l).get? j = (l.get? j).map (f (i + j)) := by
  intro l
  induction l with
  | nil => intro i j; simp [mapWithIndex]
  | cons a l ih =>
    intro i j
    cases j with
    | zero => simp [mapWithIndex]
    | succ j =>
      have h : i + 1 + j = i + (j + 1) := by omega
      simp only [mapWithIndex, List.get?_cons_succ]
      rw [ih, h]

/-- Closed form of the transform loop: it always succeeds and produces the
three pointwise derivations of the volunteer list. -/
theorem processVolunteersLoop_eq (ov : Option String) (params : ExportParams) :
    ∀ (l : List VolunteerDetails) (i : Nat),
      processVolunteersLoop ov params l i =
        Except.ok ⟨mapWithIndex (userAt params) i l,
                   l.map (recordAt params),
                   mapWithIndex (emailAt ov params) i l⟩ := by
  intro l
  induction l with
  | nil => intro i; rfl
  | cons v rest ih =>
    intro i
    simp [processVolunteersLoop, OnboardingEmailParamsBuilder.build, ih,
      mapWithIndex, userAt, recordAt, emailAt]

/-- Closed form of `process_volunteers`: the transform is total and produces
the pointwise derivations of the volunteer list. -/
theorem process_volunteers_eq (ov : Option String) (params : ExportParams) :
    process_volunteers ov params =
      Except.ok ⟨mapWithIndex (userAt params) 0 params.volunteers,
                 params.volunteers.map (recordAt params),
                 mapWithIndex (emailAt ov params) 0 params.volunteers⟩ :=
  processVolunteersLoop_eq ov params params.volunteers 0

/-! ### Behaviour of the provisioning and notification loops -/

theorem exportVolunteersLoop_le (w : World) (principal : String) :
    ∀ (l : List CreateWorkspaceVolunteer) (i : Nat),
      (exportVolunteersLoop w principal l i).1 ≤ l.length := by
  intro l
  induction l with
  | nil => intro i; simp [exportVolunteersLoop]
  | cons u rest ih =>
    intro i
    unfold exportVolunteersLoop
    cases w.createResult i with
    | ok _ => simpa using Nat.succ_le_succ (ih (i + 1))
    | error _ => simp

/-- The trace of the provisioning loop is exactly the requests it attempted:
the successful prefix plus, when the loop broke early, the one failing call. -/
theorem exportVolunteersLoop_trace (w : World) (principal : String) :
    ∀ (l : List CreateWorkspaceVolunteer) (i : Nat),
      (exportVolunteersLoop w principal l i).2 =
        (l.take ((exportVolunteersLoop w principal l i).1 + 1)).map
          (Event.createAccount principal) := by
  intro l
  induction l with
  | nil => intro i; simp [exportVolunteersLoop]
  | cons u rest ih =>
    intro i
    unfold exportVolunteersLoop
    cases w.createResult i with
    | ok _ => simp [List.take_cons, ih (i + 1)]
    | error _ => simp

/-- When every call succeeds, the provisioning loop exports the whole list. -/
theorem exportVolunteersLoop_all_ok (w : World) (principal : String) :
    ∀ (l : List CreateWorkspaceVolunteer) (i : Nat),
      (∀ j, j < l.length → w.createResult (i + j) = Except.ok ()) →
      exportVolunteersLoop w principal l i =
        (l.length, l.map (Event.createAccount principal)) := by
  intro l
  induction l with
  | nil => intro i _; rfl
  | cons u rest ih =>
    intro i hok
    have h0 : w.createResult i = Except.ok () := by
      have := hok 0 (by simp)
      simpa using this
    have hrest : ∀ j, j < rest.length → w.createResult (i + 1 + j) = Except.ok () := by
      intro j hj
      have := hok (j + 1) (by simpa using Nat.succ_lt_succ hj)
      have harith : i + (j + 1) = i + 1 + j := by omega
      rwa [harith] at this
    unfold exportVolunteersLoop
    rw [h0]
    simp [ih (i + 1) hrest]

/-- When the first failing call is the k-th, the loop counts exactly k
successes and stops right after the failing call. -/
theorem exportVolunteersLoop_fail (w : World) (principal : String) :
    ∀ (l : List CreateWorkspaceVolunteer) (i k : Nat) (m : String),
      k < l.length →
      (∀ j, j < k → w.createResult (i + j) = Except.ok ()) →
      w.createResult (i + k) = Except.error m →
      exportVolunteersLoop w principal l i =
        (k, (l.take (k + 1)).map (Event.createAccount principal)) := by
  intro l
  induction l with
  | nil => intro i k m hk _ _; simp at hk
  | cons u rest ih =>
    intro i k m hk hok hfail
    cases k with
    | zero =>
      have h0 : w.createResult i = Except.error m := by simpa using hfail
      unfold exportVolunteersLoop
      rw [h0]
      simp
    | succ k =>
      have h0 : w.createResult i = Except.ok () := by
        have := hok 0 (by omega)
        simpa using this
      have hok2 : ∀ j, j < k → w.createResult (i + 1 + j) = Except.ok () := by
        intro j hj
        have := hok (j + 1) (by omega)
        have harith : i + (j + 1) = i + 1 + j := by omega
        rwa [harith] at this
      have hfail2 : w.createResult (i + 1 + k) = Except.error m := by
        have harith : i + (k + 1) = i + 1 + k := by omega
        rwa [harith] at hfail
      have hk2 : k < rest.length := by simpa using Nat.lt_of_succ_lt_succ hk
      unfold exportVolunteersLoop
      rw [h0]
      simp [ih (i + 1) k m hk2 hok2 hfail2, List.take_cons]

/-- The notification loop attempts every payload in order, whatever the
per-call outcomes are. -/
theorem sendEmailsLoop_eq (w : World) :
    ∀ (l : List OnboardingEmailParams) (i : Nat),
      sendEmailsLoop w l i = l.map Event.sendEmail := by
  intro l
  induction l with
  | nil => intro i; rfl
  | cons e rest ih =>
    intro i
    unfold sendEmailsLoop
    cases w.sendResult i <;> simp [ih (i + 1)]

/-! ### Projections of traces built from each stage -/

theorem createdRequests_createTrace (principal : String)
    (l : List CreateWorkspaceVolunteer) :
    createdRequests (l.map (Event.createAccount principal)) = l := by
  induction l with
  | nil => rfl
  | cons u rest ih => simp [createdRequests] at ih ⊢; exact ih

theorem sentPayloads_createTrace (principal : String)
    (l : List CreateWorkspaceVolunteer) :
    sentPayloads (l.map (Event.createAccount principal)) = [] := by
  induction l with
  | nil => rfl
  | cons u rest ih => simp [sentPayloads]

theorem insertedBatches_createTrace (principal : String)
    (l : List CreateWorkspaceVolunteer) :
    insertedBatches (l.map (Event.createAccount principal)) = [] := by
  induction l with
  | nil => rfl
  | cons u rest ih => simp [insertedBatches]

theorem statusEvents_createTrace (principal : String)
    (l : List CreateWorkspaceVolunteer) :
    statusEvents (l.map (Event.createAccount principal)) = [] := by
  induction l with
  | nil => rfl
  | cons u rest ih => simp [statusEvents, isStatusEvent]

theorem sentPayloads_sendTrace (l : List OnboardingEmailParams) :
    sentPayloads (l.map Event.sendEmail) = l := by
  induction l with
  | nil => rfl
  | cons e rest ih => simp [sentPayloads] at ih ⊢; exact ih

theorem createdRequests_sendTrace (l : List OnboardingEmailParams) :
    createdRequests (l.map Event.sendEmail) = [] := by
  induction l with
  | nil => rfl
  | cons e rest ih => simp [createdRequests]

theorem insertedBatches_sendTrace (l : List OnboardingEmailParams) :
    insertedBatches (l.map Event.sendEmail) = [] := by
  induction l with
  | nil => rfl
  | cons e rest ih => simp [insertedBatches]

theorem statusEvents_sendTrace (l : List OnboardingEmailParams) :
    statusEvents (l.map Event.sendEmail) = [] := by
  induction l with
  | nil => rfl
  | cons e rest ih => simp [statusEvents, isStatusEvent]

theorem map_mapWithIndex {α β γ : Type} (f : Nat → α → β) (g : β → γ) :
    ∀ (i : Nat) (l : List α),
      (mapWithIndex f i l).map g = mapWithIndex (fun j a => g (f j a)) i l := by
  intro i l
  induction l generalizing i with
  | nil => rfl
  | cons a l ih => simp [mapWithIndex, ih]

theorem mapWithIndex_const {α β : Type} (g : α → β) :
    ∀ (i : Nat) (l : List α), mapWithIndex (fun _ a => g a) i l = l.map g := by
  intro i l
  induction l generalizing i with
  | nil => rfl
  | cons a l ih => simp [mapWithIndex, ih]

/-! ### Claims about the transform -/

/-- C6: the three sequences produced by the transform have the same length
as the input volunteer list, and the element at each index i of every
sequence is derived from the volunteer at index i, with no reordering. -/
theorem transform_sequences_aligned (ov : Option String) (params : ExportParams)
    (pr : ProcessedVolunteers)
    (hpr : process_volunteers ov params = Except.ok pr) :
    pr.export_data.length = params.volunteers.length ∧
    pr.pantheon_data.length = params.volunteers.length ∧
    pr.onboarding_email_data.length = params.volunteers.length ∧
    (∀ i, pr.export_data.get? i = (params.volunteers.get? i).map (userAt params i)) ∧
    (∀ i, pr.pantheon_data.get? i = (params.volunteers.get? i).map (recordAt params)) ∧
    (∀ i, pr.onboarding_email_data.get? i =
      (params.volunteers.get? i).map (emailAt ov params i)) := by
  have h := process_volunteers_eq ov params
  rw [hpr] at h
  obtain rfl := (Except.ok.injEq _ _).mp h.symm
  refine ⟨mapWithIndex_length _ 0 _, by simp, mapWithIndex_length _ 0 _, ?_, ?_, ?_⟩
  · intro i
    simpa using mapWithIndex_get? (userAt params) params.volunteers 0 i
  · intro i
    simp [List.get?_map]
  · intro i
    simpa using mapWithIndex_get? (emailAt ov params) params.volunteers 0 i

/-- C6 witness: the alignment theorem applied to concrete two-volunteer
input. -/
theorem transform_sequences_aligned_witness :
    process_volunteers none sampleParams = Except.ok samplePr ∧
    (samplePr.export_data.length = sampleParams.volunteers.length ∧
     samplePr.pantheon_data.length = sampleParams.volunteers.length ∧
     samplePr.onboarding_email_data.length = sampleParams.volunteers.length ∧
     (∀ i, samplePr.export_data.get? i =
       (sampleParams.volunteers.get? i).map (userAt sampleParams i)) ∧
     (∀ i, samplePr.pantheon_data.get? i =
       (sampleParams.volunteers.get? i).map (recordAt sampleParams)) ∧
     (∀ i, samplePr.onboarding_email_data.get? i =
       (sampleParams.volunteers.get? i).map (emailAt none sampleParams i))) :=
  ⟨rfl, transform_sequences_aligned none sampleParams samplePr rfl⟩

/-- C7: when the operator recipient override is set, every notification
payload for the run is addressed to the override; when it is not set, each
payload is addressed to the personal email of the matching volunteer. -/
theorem notification_recipient_override (ov : Option String)
    (params : ExportParams) (pr : ProcessedVolunteers)
    (hpr : process_volunteers ov params = Except.ok pr) :
    match ov with
    | some a => pr.onboarding_email_data.map OnboardingEmailParams.email =
        params.volunteers.map (fun _ => a)
    | none => pr.onboarding_email_data.map OnboardingEmailParams.email =
        params.volunteers.map VolunteerDetails.email := by
  have h := process_volunteers_eq ov params
  rw [hpr] at h
  obtain rfl := (Except.ok.injEq _ _).mp h.symm
  cases ov with
  | none =>
    show (mapWithIndex (emailAt none params) 0 params.volunteers).map
        OnboardingEmailParams.email = _
    rw [map_mapWithIndex]
    simpa [emailAt] using
      mapWithIndex_const (fun v : VolunteerDetails => v.email) 0 params.volunteers
  | some a =>
    show (mapWithIndex (emailAt (some a) params) 0 params.volunteers).map
        OnboardingEmailParams.email = _
    rw [map_mapWithIndex]
    simpa [emailAt] using
      mapWithIndex_const (fun _ : VolunteerDetails => a) 0 params.volunteers

/-- C7 witness: with an override set, both concrete payloads are addressed
to the override. -/
theorem notification_recipient_override_witness :
    process_volunteers (some "qa@ws.org") sampleParams =
      Except.ok ⟨[userAt sampleParams 0 v0, userAt sampleParams 1 v1],
        [recordAt sampleParams v0, recordAt sampleParams v1],
        [emailAt (some "qa@ws.org") sampleParams 0 v0,
         emailAt (some "qa@ws.org") sampleParams 1 v1]⟩ ∧
    (⟨[userAt sampleParams 0 v0, userAt sampleParams 1 v1],
        [recordAt sampleParams v0, recordAt sampleParams v1],
        [emailAt (some "qa@ws.org") sampleParams 0 v0,
         emailAt (some "qa@ws.org") sampleParams 1 v1]⟩ :
        ProcessedVolunteers).onboarding_email_data.map
        OnboardingEmailParams.email =
      sampleParams.volunteers.map (fun _ => "qa@ws.org") :=
  ⟨rfl, notification_recipient_override (some "qa@ws.org") sampleParams _ rfl⟩

/-- C10: at every index the three derived records agree: the temporary
password of the payload is the password of the request, the workspace email
of the payload equals the primary email of the request and the workspace
email of the export record, the export record carries the volunteer id and
the job id, and its org unit
is the constant "/Programs/PantheonUsers". -/
theorem derived_records_field_agreement (ov : Option String)
    (params : ExportParams) (pr : ProcessedVolunteers)
    (hpr : process_volunteers ov params = Except.ok pr) :
    ∀ i,
      (pr.onboarding_email_data.get? i).map OnboardingEmailParams.temporary_password =
        (pr.export_data.get? i).map CreateWorkspaceVolunteer.password ∧
      (pr.onboarding_email_data.get? i).map OnboardingEmailParams.workspace_email =
        (pr.export_data.get? i).map CreateWorkspaceVolunteer.primary_email ∧
      (pr.pantheon_data.get? i).map InsertVolunteerExportedToWorkspace.workspace_email =
        (pr.export_data.get? i).map CreateWorkspaceVolunteer.primary_email ∧
      (pr.pantheon_data.get? i).map InsertVolunteerExportedToWorkspace.volunteer_id =
        (params.volunteers.get? i).map VolunteerDetails.volunteer_id ∧
      (pr.pantheon_data.get? i).map InsertVolunteerExportedToWorkspace.job_id =
        (params.volunteers.get? i).map (fun _ => params.job_id) ∧
      (pr.pantheon_data.get? i).map InsertVolunteerExportedToWorkspace.org_unit =
        (params.volunteers.get? i).map (fun _ => "/Programs/PantheonUsers") := by
  have h := process_volunteers_eq ov params
  rw [hpr] at h
  obtain rfl := (Except.ok.injEq _ _).mp h.symm
  intro i
  have hu := mapWithIndex_get? (userAt params) params.volunteers 0 i
  have he := mapWithIndex_get? (emailAt ov params) params.volunteers 0 i
  simp only [Nat.zero_add] at hu he
  refine ⟨?_, ?_, ?_, ?_, ?_, ?_⟩ <;>
    simp only [hu, he, List.get?_map] <;>
    cases params.volunteers.get? i <;>
    simp [userAt, emailAt, recordAt]

/-- C10 witness: the field-agreement theorem applied to the concrete
two-volunteer input. -/
theorem derived_records_field_agreement_witness :
    process_volunteers none sampleParams = Except.ok samplePr ∧
    (∀ i,
      (samplePr.onboarding_email_data.get? i).map OnboardingEmailParams.temporary_password =
        (samplePr.export_data.get? i).map CreateWorkspaceVolunteer.password ∧
      (samplePr.onboarding_email_data.get? i).map OnboardingEmailParams.workspace_email =
        (samplePr.export_data.get? i).map CreateWorkspaceVolunteer.primary_email ∧
      (samplePr.pantheon_data.get? i).map InsertVolunteerExportedToWorkspace.workspace_email =
        (samplePr.export_data.get? i).map CreateWorkspaceVolunteer.primary_email ∧
      (samplePr.pantheon_data.get? i).map InsertVolunteerExportedToWorkspace.volunteer_id =
        (sampleParams.volunteers.get? i).map VolunteerDetails.volunteer_id ∧
      (samplePr.pantheon_data.get? i).map InsertVolunteerExportedToWorkspace.job_id =
        (sampleParams.volunteers.get? i).map (fun _ => sampleParams.job_id) ∧
      (samplePr.pantheon_data.get? i).map InsertVolunteerExportedToWorkspace.org_unit =
        (sampleParams.volunteers.get? i).map (fun _ => "/Programs/PantheonUsers")) :=
  ⟨rfl, derived_records_field_agreement none sampleParams samplePr rfl⟩

/-- C5: the transform is total on every job input because every notification
payload is fully constructed, so a transform failure (the only event the
entry point would propagate with an empty trace, leaving the job status
untouched) can never occur; and payload construction fails exactly when a
required field is missing. -/
theorem transform_total_and_failure_propagation (ov : Option String)
    (params : ExportParams) (w : World) :
    (∃ pr, process_volunteers ov params = Except.ok pr) ∧
    (match process_volunteers ov params with
     | Except.error e => export_task w ov params = (Except.error e, [])
     | Except.ok _ => True) ∧
    (∀ b : OnboardingEmailParamsBuilder,
      (∃ e, b.build = Except.error e) ↔
        (b.first_name = none ∨ b.last_name = none ∨ b.email = none ∨
         b.workspace_email = none ∨ b.temporary_password = none)) := by
  refine ⟨⟨_, process_volunteers_eq ov params⟩, ?_, ?_⟩
  · rw [process_volunteers_eq ov params]
    exact trivial
  · intro b
    obtain ⟨f, l, e, we, tp, sa⟩ := b
    cases f <;> cases l <;> cases e <;> cases we <;> cases tp <;>
      simp [OnboardingEmailParamsBuilder.build]

/-! ### Unfolding the orchestrator -/

@[simp] theorem createdRequests_append (a b : List Event) :
    createdRequests (a ++ b) = createdRequests a ++ createdRequests b := by
  simp [createdRequests]

@[simp] theorem insertedBatches_append (a b : List Event) :
    insertedBatches (a ++ b) = insertedBatches a ++ insertedBatches b := by
  simp [insertedBatches]

@[simp] theorem sentPayloads_append (a b : List Event) :
    sentPayloads (a ++ b) = sentPayloads a ++ sentPayloads b := by
  simp [sentPayloads]

@[simp] theorem statusEvents_append (a b : List Event) :
    statusEvents (a ++ b) = statusEvents a ++ statusEvents b := by
  simp [statusEvents]

/-- When the batch insert succeeds, the pipeline runs the notification stage
over the (possibly truncated) payloads and marks the job complete; its
result is the result of the status write. -/
theorem export_task_insert_ok (w : World) (ov : Option String)
    (params : ExportParams) (pr : ProcessedVolunteers)
    (hpr : process_volunteers ov params = Except.ok pr)
    (hins : w.insertResult = Except.ok ()) :
    export_task w ov params =
      (let n := pr.export_data.length
       let er := export_volunteers_to_workspace w params.principal pr.export_data
       let pd := if er.1 ≠ n then pr.pantheon_data.take er.1 else pr.pantheon_data
       let od := if er.1 ≠ n then pr.onboarding_email_data.take er.1
                 else pr.onboarding_email_data
       ((match w.completeResult with
         | Except.ok _ => Except.ok ()
         | Except.error e2 => Except.error e2),
        er.2 ++ [Event.batchInsert pd] ++ od.map Event.sendEmail
          ++ [Event.markComplete params.job_id])) := by
  simp only [export_task, hpr, save_exported_volunteers, send_onboarding_emails,
    sendEmailsLoop_eq, hins]
  cases w.completeResult <;> simp

/-- When the batch insert fails, the notification stage is skipped and the
job is marked errored with the insert error message; the pipeline result is
the result of the status write. -/
theorem export_task_insert_error (w : World) (ov : Option String)
    (params : ExportParams) (pr : ProcessedVolunteers) (e : String)
    (hpr : process_volunteers ov params = Except.ok pr)
    (hins : w.insertResult = Except.error e) :
    export_task w ov params =
      (let n := pr.export_data.length
       let er := export_volunteers_to_workspace w params.principal pr.export_data
       let pd := if er.1 ≠ n then pr.pantheon_data.take er.1 else pr.pantheon_data
       ((match w.erroredResult with
         | Except.ok _ => Except.ok ()
         | Except.error e2 => Except.error e2),
        er.2 ++ [Event.batchInsert pd] ++ [Event.markErrored params.job_id e])) := by
  simp only [export_task, hpr, save_exported_volunteers, send_onboarding_emails,
    sendEmailsLoop_eq, hins]
  cases w.erroredResult <;> simp

theorem getLast?_append_singleton {α : Type} (l : List α) (x : α) :
    (l ++ [x]).getLast? = some x := by
  simp [List.getLast?_concat]

@[simp] theorem sentPayloads_batchInsert (rs : List InsertVolunteerExportedToWorkspace) :
    sentPayloads [Event.batchInsert rs] = [] := rfl

@[simp] theorem sentPayloads_markComplete (j : Nat) :
    sentPayloads [Event.markComplete j] = [] := rfl

@[simp] theorem sentPayloads_markErrored (j : Nat) (e : String) :
    sentPayloads [Event.markErrored j e] = [] := rfl

@[simp] theorem statusEvents_batchInsert (rs : List InsertVolunteerExportedToWorkspace) :
    statusEvents [Event.batchInsert rs] = [] := rfl

@[simp] theorem statusEvents_markComplete (j : Nat) :
    statusEvents [Event.markComplete j] = [Event.markComplete j] := rfl

@[simp] theorem statusEvents_markErrored (j : Nat) (e : String) :
    statusEvents [Event.markErrored j e] = [Event.markErrored j e] := rfl

@[simp] theorem createdRequests_batchInsert (rs : List InsertVolunteerExportedToWorkspace) :
    createdRequests [Event.batchInsert rs] = [] := rfl

@[simp] theorem createdRequests_markComplete (j : Nat) :
    createdRequests [Event.markComplete j] = [] := rfl

@[simp] theorem createdRequests_markErrored (j : Nat) (e : String) :
    createdRequests [Event.markErrored j e] = [] := rfl

@[simp] theorem insertedBatches_batchInsert (rs : List InsertVolunteerExportedToWorkspace) :
    insertedBatches [Event.batchInsert rs] = [rs] := rfl

@[simp] theorem insertedBatches_markComplete (j : Nat) :
    insertedBatches [Event.markComplete j] = [] := rfl

@[simp] theorem insertedBatches_markErrored (j : Nat) (e : String) :
    insertedBatches [Event.markErrored j e] = [] := rfl

theorem ite_truncate_eq_take {α : Type} (l : List α) (c n : Nat)
    (hlen : l.length = n) (hc : c ≤ n) :
    (if c ≠ n then l.take c else l) = l.take c := by
  by_cases h : c = n
  · subst h
    rw [if_neg (by simp)]
    rw [← hlen, List.take_length]
  · rw [if_pos h]

/-- Under a successful batch insert the single status write is the
mark-complete call. Shared helper for the error-handling claims. -/
theorem statusEvents_of_insert_ok (w : World) (ov : Option String)
    (params : ExportParams) (hins : w.insertResult = Except.ok ()) :
    statusEvents (export_task w ov params).2 = [Event.markComplete params.job_id] := by
  rw [export_task_insert_ok w ov params _ (process_volunteers_eq ov params) hins]
  have htr := exportVolunteersLoop_trace w params.principal
    (mapWithIndex (userAt params) 0 params.volunteers) 0
  simp only [export_volunteers_to_workspace, htr, statusEvents_append,
    statusEvents_createTrace, statusEvents_sendTrace, statusEvents_batchInsert,
    statusEvents_markComplete, List.append_nil, List.nil_append]

/-- Under a failed batch insert the single status write is the mark-errored
call carrying the insert error message, and no send call is made. Shared
helper for the error-handling claims. -/
theorem trace_of_insert_error (w : World) (ov : Option String)
    (params : ExportParams) (e : String)
    (hins : w.insertResult = Except.error e) :
    sentPayloads (export_task w ov params).2 = [] ∧
    statusEvents (export_task w ov params).2 =
      [Event.markErrored params.job_id e] := by
  rw [export_task_insert_error w ov params _ e (process_volunteers_eq ov params) hins]
  have htr := exportVolunteersLoop_trace w params.principal
    (mapWithIndex (userAt params) 0 params.volunteers) 0
  constructor <;>
    simp only [export_volunteers_to_workspace, htr, sentPayloads_append,
      statusEvents_append, sentPayloads_createTrace, statusEvents_createTrace,
      sentPayloads_batchInsert, statusEvents_batchInsert,
      sentPayloads_markErrored, statusEvents_markErrored,
      List.append_nil, List.nil_append]

/-- C2: when the batch insert of export records fails, no notification send
call is made and the job status is set to errored with the persistence
error message as the reason. -/
theorem persistence_failure_skips_notification (w : World) (ov : Option String)
    (params : ExportParams) (e : String)
    (hins : w.insertResult = Except.error e) :
    sentPayloads (export_task w ov params).2 = [] ∧
    statusEvents (export_task w ov params).2 =
      [Event.markErrored params.job_id e] :=
  trace_of_insert_error w ov params e hins

/-- C2 witness: a concrete run whose batch insert fails sends nothing and
marks the job errored with the insert error message. -/
theorem persistence_failure_skips_notification_witness :
    ({ okWorld with insertResult := Except.error "db down" } : World).insertResult =
      Except.error "db down" ∧
    (sentPayloads (export_task { okWorld with insertResult := Except.error "db down" }
        none sampleParams).2 = [] ∧
     statusEvents (export_task { okWorld with insertResult := Except.error "db down" }
        none sampleParams).2 = [Event.markErrored sampleParams.job_id "db down"]) :=
  ⟨rfl, persistence_failure_skips_notification _ none sampleParams "db down" rfl⟩

/-- C3: when the batch insert succeeds the job is marked complete whatever
the per-recipient send outcomes are, and every truncated payload still gets
a send call: the notification loop never stops early and never changes the
terminal status. -/
theorem notification_failures_do_not_affect_status (w : World)
    (ov : Option String) (params : ExportParams)
    (hins : w.insertResult = Except.ok ()) :
    statusEvents (export_task w ov params).2 = [Event.markComplete params.job_id] ∧
    sentPayloads (export_task w ov params).2 =
      (match process_volunteers ov params with
       | Except.ok pr => pr.onboarding_email_data.take
           (export_volunteers_to_workspace w params.principal pr.export_data).1
       | Except.error _ => []) := by
  refine ⟨statusEvents_of_insert_ok w ov params hins, ?_⟩
  rw [export_task_insert_ok w ov params _ (process_volunteers_eq ov params) hins,
    process_volunteers_eq ov params]
  have htr := exportVolunteersLoop_trace w params.principal
    (mapWithIndex (userAt params) 0 params.volunteers) 0
  have hle := exportVolunteersLoop_le w params.principal
    (mapWithIndex (userAt params) 0 params.volunteers) 0
  have hod := ite_truncate_eq_take
    (mapWithIndex (emailAt ov params) 0 params.volunteers)
    (exportVolunteersLoop w params.principal
      (mapWithIndex (userAt params) 0 params.volunteers) 0).1
    (mapWithIndex (userAt params) 0 params.volunteers).length
    (by rw [mapWithIndex_length, mapWithIndex_length]) hle
  simp only [export_volunteers_to_workspace, htr, hod, sentPayloads_append,
    sentPayloads_createTrace, sentPayloads_sendTrace, sentPayloads_batchInsert,
    sentPayloads_markComplete, List.append_nil, List.nil_append]

/-- C3 witness: a concrete run where every send fails is still marked
complete and still attempts both sends. -/
theorem notification_failures_do_not_affect_status_witness :
    ({ okWorld with sendResult := fun _ => Except.error "smtp down" } : World).insertResult =
      Except.ok () ∧
    (statusEvents (export_task
        { okWorld with sendResult := fun _ => Except.error "smtp down" }
        none sampleParams).2 = [Event.markComplete sampleParams.job_id] ∧
     sentPayloads (export_task
        { okWorld with sendResult := fun _ => Except.error "smtp down" }
        none sampleParams).2 =
      (match process_volunteers none sampleParams with
       | Except.ok pr => pr.onboarding_email_data.take
           (export_volunteers_to_workspace
             { okWorld with sendResult := fun _ => Except.error "smtp down" }
             sampleParams.principal pr.export_data).1
       | Except.error _ => [])) :=
  ⟨rfl, notification_failures_do_not_affect_status _ none sampleParams rfl⟩

/-- C9: `send_onboarding_emails` returns success for every input, so the
errored branch guarding the notification stage is unreachable: after a
successful persist the job is never marked errored. -/
theorem notification_stage_never_errors (w : World) (ov : Option String)
    (params : ExportParams) (payloads : List OnboardingEmailParams)
    (hins : w.insertResult = Except.ok ()) :
    (send_onboarding_emails w payloads).1 = Except.ok () ∧
    statusEvents (export_task w ov params).2 =
      [Event.markComplete params.job_id] :=
  ⟨rfl, statusEvents_of_insert_ok w ov params hins⟩

/-- C9 witness: with all sends failing, `send_onboarding_emails` still
returns success and the concrete job is marked complete. -/
theorem notification_stage_never_errors_witness :
    ({ okWorld with sendResult := fun _ => Except.error "smtp down" } : World).insertResult =
      Except.ok () ∧
    ((send_onboarding_emails
        { okWorld with sendResult := fun _ => Except.error "smtp down" }
        [emailAt none sampleParams 0 v0]).1 = Except.ok () ∧
     statusEvents (export_task
        { okWorld with sendResult := fun _ => Except.error "smtp down" }
        none sampleParams).2 = [Event.markComplete sampleParams.job_id]) :=
  ⟨rfl, notification_stage_never_errors _ none sampleParams
    [emailAt none sampleParams 0 v0] rfl⟩

/-- C8: every pipeline execution makes exactly one status-write call, and
that call is the last external call of the run. -/
theorem status_written_exactly_once_and_last (w : World) (ov : Option String)
    (params : ExportParams) :
    (statusEvents (export_task w ov params).2).length = 1 ∧
    (∃ ev, (export_task w ov params).2.getLast? = some ev ∧
      isStatusEvent ev = true) := by
  cases hins : w.insertResult with
  | ok u =>
    cases u
    constructor
    · rw [statusEvents_of_insert_ok w ov params hins]
      rfl
    · rw [export_task_insert_ok w ov params _ (process_volunteers_eq ov params) hins]
      simp only []
      exact ⟨Event.markComplete params.job_id,
        getLast?_append_singleton _ _, rfl⟩
  | error e =>
    constructor
    · rw [(trace_of_insert_error w ov params e hins).2]
      rfl
    · rw [export_task_insert_error w ov params _ e (process_volunteers_eq ov params) hins]
      simp only []
      exact ⟨Event.markErrored params.job_id e,
        getLast?_append_singleton _ _, rfl⟩

/-- C4 counterexample: the claim that only a transform failure propagates
out of `export_task` is false. In this concrete run the transform succeeds
and provisioning, persistence and notification all succeed, yet the final
mark-complete status write fails and its error propagates out of
`export_task` through the question-mark operator. -/
theorem only_transform_error_propagates_cex :
    process_volunteers none sampleParams = Except.ok samplePr ∧
    (export_task { okWorld with completeResult := Except.error "status write failed" }
        none sampleParams).1 = Except.error "status write failed" :=
  ⟨rfl, rfl⟩

/-- C4 amended: only a transform failure or a failure of the final
job-status write propagates out of `export_task`; when the status writes
succeed, the entry point returns success no matter which provisioning,
persistence, or notification calls fail. -/
theorem entry_point_error_policy (w : World) (ov : Option String)
    (params : ExportParams)
    (hc : w.completeResult = Except.ok ())
    (he : w.erroredResult = Except.ok ()) :
    (export_task w ov params).1 = Except.ok () := by
  cases hins : w.insertResult with
  | ok u =>
    cases u
    rw [export_task_insert_ok w ov params _ (process_volunteers_eq ov params) hins]
    simp [hc]
  | error e =>
    rw [export_task_insert_error w ov params _ e (process_volunteers_eq ov params) hins]
    simp [he]

/-- C4 amended witness: with succeeding status writes the concrete run
returns success. -/
theorem entry_point_error_policy_witness :
    (okWorld.completeResult = Except.ok () ∧ okWorld.erroredResult = Except.ok ()) ∧
    (export_task okWorld none sampleParams).1 = Except.ok () :=
  ⟨⟨rfl, rfl⟩, entry_point_error_policy okWorld none sampleParams rfl rfl⟩

/-- C1: when the provisioning loop first fails at index k, exactly k
accounts are created, the loop stops right after the failing call (k+1
requests attempted), and the record and payload sequences passed downstream
are the first k elements, so no volunteer at an index at or beyond k appears
in any persistence or notification call. -/
theorem provisioning_failfast_truncation (w : World) (ov : Option String)
    (params : ExportParams) (pr : ProcessedVolunteers) (k : Nat) (m : String)
    (hpr : process_volunteers ov params = Except.ok pr)
    (hk : k < params.volunteers.length)
    (hok : ∀ j, j < k → w.createResult j = Except.ok ())
    (hfail : w.createResult k = Except.error m) :
    (export_volunteers_to_workspace w params.principal pr.export_data).1 = k ∧
    createdRequests (export_task w ov params).2 = pr.export_data.take (k + 1) ∧
    insertedBatches (export_task w ov params).2 = [pr.pantheon_data.take k] ∧
    sentPayloads (export_task w ov params).2 =
      (match w.insertResult with
       | Except.ok _ => pr.onboarding_email_data.take k
       | Except.error _ => []) := by
  have h := process_volunteers_eq ov params
  rw [hpr] at h
  obtain rfl := (Except.ok.injEq _ _).mp h.symm
  have hklen : k < (mapWithIndex (userAt params) 0 params.volunteers).length := by
    rw [mapWithIndex_length]; exact hk
  have hok0 : ∀ j, j < k → w.createResult (0 + j) = Except.ok () := by
    intro j hj; simpa using hok j hj
  have hfail0 : w.createResult (0 + k) = Except.error m := by simpa using hfail
  have hloop := exportVolunteersLoop_fail w params.principal
    (mapWithIndex (userAt params) 0 params.volunteers) 0 k m hklen hok0 hfail0
  have hcount : (export_volunteers_to_workspace w params.principal
      (mapWithIndex (userAt params) 0 params.volunteers)).1 = k := by
    simp [export_volunteers_to_workspace, hloop]
  refine ⟨hcount, ?_⟩
  have hkn : k ≠ (mapWithIndex (userAt params) 0 params.volunteers).length :=
    Nat.ne_of_lt hklen
  cases hins : w.insertResult with
  | ok u =>
    cases u
    rw [export_task_insert_ok w ov params _ (process_volunteers_eq ov params) hins]
    simp only [export_volunteers_to_workspace, hloop, if_pos hkn,
      createdRequests_append, insertedBatches_append, sentPayloads_append,
      createdRequests_createTrace, insertedBatches_createTrace,
      sentPayloads_createTrace, createdRequests_sendTrace,
      insertedBatches_sendTrace, sentPayloads_sendTrace,
      createdRequests_batchInsert, insertedBatches_batchInsert,
      sentPayloads_batchInsert, createdRequests_markComplete,
      insertedBatches_markComplete, sentPayloads_markComplete,
      List.append_nil, List.nil_append]
    refine ⟨?_, ?_, ?_⟩ <;> trivial
  | error e =>
    rw [export_task_insert_error w ov params _ e (process_volunteers_eq ov params) hins]
    simp only [export_volunteers_to_workspace, hloop, if_pos hkn,
      createdRequests_append, insertedBatches_append, sentPayloads_append,
      createdRequests_createTrace, insertedBatches_createTrace,
      sentPayloads_createTrace, createdRequests_batchInsert,
      insertedBatches_batchInsert, sentPayloads_batchInsert,
      createdRequests_markErrored, insertedBatches_markErrored,
      sentPayloads_markErrored, List.append_nil, List.nil_append]
    refine ⟨?_, ?_, ?_⟩ <;> trivial

/-- C1 witness: on the two-volunteer input with the second provisioning
call failing, one account is created, two requests are attempted, and the
persisted and notified sequences have length one. -/
theorem provisioning_failfast_truncation_witness :
    (process_volunteers none sampleParams = Except.ok samplePr ∧
     1 < sampleParams.volunteers.length ∧
     (∀ j, j < 1 → failWorld.createResult j = Except.ok ()) ∧
     failWorld.createResult 1 = Except.error "ws down") ∧
    ((export_volunteers_to_workspace failWorld sampleParams.principal
        samplePr.export_data).1 = 1 ∧
     createdRequests (export_task failWorld none sampleParams).2 =
       samplePr.export_data.take 2 ∧
     insertedBatches (export_task failWorld none sampleParams).2 =
       [samplePr.pantheon_data.take 1] ∧
     sentPayloads (export_task failWorld none sampleParams).2 =
       (match failWorld.insertResult with
        | Except.ok _ => samplePr.onboarding_email_data.take 1
        | Except.error _ => [])) :=
  ⟨⟨rfl, by decide,
    by intro j hj; cases j with | zero => rfl | succ n => omega, rfl⟩,
   provisioning_failfast_truncation failWorld none sampleParams samplePr 1
     "ws down" rfl (by decide)
     (by intro j hj; cases j with | zero => rfl | succ n => omega) rfl⟩

end Scipio
